/-
  Verification of the Kairos school-communication platform's
  authorization / audience / trial / invitation core.

  Shallow embedding of:
    - kairos/api/invitations.py            (guardian invitation workflow)
    - kairos/kairos/doctype/guardian_invite/guardian_invite.py
    - kairos/kairos/doctype/student_guardian/student_guardian.py
    - kairos/kairos/api/trial.py           (trial management API)
    - kairos/kairos/middleware/trial_access.py
    - kairos/kairos/audience.py            (audience resolution)
    - kairos/permissions.py                (row-level permission predicates)

  Modelling conventions:
    - datetimes are integers (seconds since epoch); `now` is an explicit
      parameter standing for frappe.utils.now_datetime()
    - the document store is an explicit value (lists of rows) threaded
      through the operations
    - frappe.throw is modelled by Except with an error taxonomy
    - framework-internal helpers (validate_email_address, naming series)
      are modelled by small explicit functions noted at their definition
-/

import Mathlib

namespace Kairos

/-! ## Time model -/

/-- Seconds in a day; frappe.utils.add_days adds whole days. -/
def secondsPerDay : Int := 86400

/-- frappe.utils.add_days on the integer time model. -/
def add_days (t : Int) (n : Int) : Int := t + n * secondsPerDay

/-- Models frappe.utils.validate_email_address (external framework
contract): we only retain that it is a fixed, pure predicate on the
string. -/
def valid_email (e : String) : Bool := e.data.contains '@'

/-! ## Error taxonomy (frappe.throw with exception classes) -/

inductive ApiError where
  | mandatory (msg : String)
  | validation (msg : String)
  | doesNotExist (msg : String)
  | permission (msg : String)
deriving Repr, DecidableEq

/-! ## Guardian Invite data model
    (doctype/guardian_invite/guardian_invite.py) -/

/-- One row of the `student_ids` child table (Guardian Invite Student). -/
structure GuardianInviteStudentRow where
  student : String
  student_name : String
deriving Repr, DecidableEq

/-- A Guardian Invite document. -/
structure GuardianInvite where
  name : String
  token : String
  email : String
  institution : String
  student_ids : List GuardianInviteStudentRow
  expires : Option Int
  used : Bool
  used_at : Option Int
  guardian : Option String
deriving Repr, DecidableEq

/-- GuardianInvite.is_valid: not used and not expired
(`now_datetime() > get_datetime(self.expires)` means expired). -/
def GuardianInvite.is_valid (inv : GuardianInvite) (now : Int) : Bool :=
  if inv.used then false
  else
    match inv.expires with
    | some e => if now > e then false else true
    | none => true

/-- The status derivation shared by get_invitation and list_invitations:
"Used" if the used flag is set, else "Expired" if expires is strictly
before now, else "Pending"; paired with the is_valid flag returned by
get_invitation. -/
def invite_derived_status (inv : GuardianInvite) (now : Int) : String × Bool :=
  if inv.used then ("Used", false)
  else
    match inv.expires with
    | some e => if e < now then ("Expired", false) else ("Pending", true)
    | none => ("Pending", true)

/-- The view returned by get_invitation (the fields the claims are about). -/
structure InvitationView where
  invitation_id : String
  email : String
  students : List String
  expires_at : Option Int
  status : String
  is_valid : Bool
deriving Repr, DecidableEq

/-- api/invitations.py get_invitation: look the invite up by token and
derive its status. -/
def get_invitation (invites : List GuardianInvite) (token : String) (now : Int) :
    Except ApiError InvitationView :=
  if token = "" then .error (.mandatory "Token is required")
  else
    match invites.find? (fun i => i.token == token) with
    | none => .error (.doesNotExist "Invitation not found or invalid token")
    | some inv =>
      let sv := invite_derived_status inv now
      .ok { invitation_id := inv.name
            email := inv.email
            students := inv.student_ids.map (·.student)
            expires_at := inv.expires
            status := sv.1
            is_valid := sv.2 }

/-- GuardianInvite.validate, run by every save: validate_email plus
validate_expiration_on_used (an invite being flipped to used must not be
past its expiry at save time). `old` is the stored version of the
document (get_doc_before_save). -/
def GuardianInvite.validate_on_save (inv : GuardianInvite) (old : Option GuardianInvite)
    (now : Int) : Except ApiError Unit :=
  if inv.email ≠ "" ∧ valid_email inv.email = false then
    .error (.validation "Invalid email address")
  else if inv.used && (match old with | some o => !o.used | none => false) &&
      (match inv.expires with | some e => decide (now > e) | none => false) then
    .error (.validation "Cannot mark an expired invite as used.")
  else
    .ok ()

/-- Saving a Guardian Invite: run the validate hooks against the stored
version, then write the document back by name. -/
def save_guardian_invite (invites : List GuardianInvite) (inv : GuardianInvite)
    (now : Int) : Except ApiError (List GuardianInvite) :=
  let old := invites.find? (fun i => i.name == inv.name)
  match inv.validate_on_save old now with
  | .error e => .error e
  | .ok _ => .ok (invites.map (fun i => if i.name == inv.name then inv else i))

/-- GuardianInvite.mark_as_used: reject if already used or no longer
valid, then set used/used_at/guardian and save (the save re-runs
validate, closing the race the spec mentions). -/
def GuardianInvite.mark_as_used (invites : List GuardianInvite) (inv : GuardianInvite)
    (guardian_name : String) (now : Int) : Except ApiError (List GuardianInvite) :=
  if inv.used then .error (.validation "This invite has already been used.")
  else if inv.is_valid now = false then
    .error (.validation "This invite is no longer valid (expired or already used).")
  else
    save_guardian_invite invites
      { inv with used := true, used_at := some now, guardian := some guardian_name } now

/-- api/invitations.py revoke_invitation: only while not used and not
expired; implemented by forcing expires to now. -/
def revoke_invitation (invites : List GuardianInvite) (invitation_id : String)
    (now : Int) : Except ApiError (List GuardianInvite) :=
  if invitation_id = "" then .error (.mandatory "Invitation ID is required")
  else
    match invites.find? (fun i => i.name == invitation_id) with
    | none => .error (.doesNotExist "Invitation does not exist")
    | some inv =>
      if inv.used then
        .error (.validation "Cannot revoke invitation: it has already been used")
      else if (match inv.expires with | some e => decide (e < now) | none => false) then
        .error (.validation "Cannot revoke invitation: it has already expired")
      else
        save_guardian_invite invites { inv with expires := some now } now

/-- The result record of resend_invitation. -/
structure ResendResult where
  invitation_id : String
  token : String
  new_expires_at : Int
deriving Repr, DecidableEq

/-- api/invitations.py resend_invitation: only rejected when already
used (an expired-but-unused invite can be resurrected); sets expires to
now + new_expiration_days without touching any other field. -/
def resend_invitation (invites : List GuardianInvite) (invitation_id : String)
    (new_expiration_days : Int) (now : Int) :
    Except ApiError (List GuardianInvite × ResendResult) :=
  if invitation_id = "" then .error (.mandatory "Invitation ID is required")
  else
    match invites.find? (fun i => i.name == invitation_id) with
    | none => .error (.doesNotExist "Invitation does not exist")
    | some inv =>
      if inv.used then
        .error (.validation "Cannot resend invitation: it has already been used")
      else
        let new_expires := add_days now new_expiration_days
        match save_guardian_invite invites { inv with expires := some new_expires } now with
        | .error e => .error e
        | .ok invites' =>
          .ok (invites', { invitation_id := inv.name, token := inv.token
                           new_expires_at := new_expires })

/-! ## Accept-invitation state machine
    (api/invitations.py accept_invitation and _get_or_create_guardian) -/

/-- The platform User fields read by _get_or_create_guardian; the User
name is its email. Empty string models a falsy (missing) value. -/
structure UserRow where
  name : String
  first_name : String
  last_name : String
  mobile_no : String
  phone : String
deriving Repr, DecidableEq

/-- A Guardian document. -/
structure Guardian where
  name : String
  email : String
  first_name : String
  last_name : String
  mobile : String
  user : Option String
deriving Repr, DecidableEq

/-- Guardian.full_name as used for Student Guardian.guardian_name. -/
def Guardian.full_name (g : Guardian) : String :=
  if g.last_name = "" then g.first_name else g.first_name ++ " " ++ g.last_name

/-- A Student Guardian row (doctype/student_guardian). -/
structure StudentGuardianRow where
  name : String
  student : String
  student_name : String
  guardian : String
  guardian_name : String
  relation : String
  is_primary : Bool
  can_pickup : Bool
  can_receive_communications : Bool
deriving Repr, DecidableEq

/-- The Student fields the invitation and permission code reads. -/
structure StudentRow where
  name : String
  student_name : String
  institution : Option String
  campus : Option String
  current_grade : Option String
  current_section : Option String
deriving Repr, DecidableEq

/-- The slice of the document store accept_invitation touches. -/
structure InviteDB where
  invites : List GuardianInvite
  guardians : List Guardian
  student_guardians : List StudentGuardianRow
  students : List StudentRow
  users : List UserRow
deriving Repr, DecidableEq

/-- Models the GRD- naming series: a fresh, unused document name. -/
def fresh_guardian_name (db : InviteDB) : String :=
  "GRD-" ++ toString (db.guardians.length + 1)

/-- Models the naming series for Student Guardian rows. -/
def fresh_sg_name (db : InviteDB) : String :=
  "SG-" ++ toString (db.student_guardians.length + 1)

/-- _get_or_create_guardian: find an existing Guardian by email, else
create one (reusing platform User identity fields when a matching User
account exists). -/
def get_or_create_guardian (db : InviteDB) (email : String) : Guardian × InviteDB :=
  match db.guardians.find? (fun g => g.email == email) with
  | some g => (g, db)
  | none =>
    let g : Guardian :=
      match db.users.find? (fun u => u.name == email) with
      | some u =>
        { name := fresh_guardian_name db
          email := email
          first_name := if u.first_name = "" then "Guardian" else u.first_name
          last_name := u.last_name
          mobile := if u.mobile_no = "" then u.phone else u.mobile_no
          user := some email }
      | none =>
        { name := fresh_guardian_name db
          email := email
          first_name := "Guardian"
          last_name := ""
          mobile := ""
          user := none }
    (g, { db with guardians := db.guardians ++ [g] })

/-- The per-student linking loop of accept_invitation: create the
Student Guardian link only if it does not already exist, and report the
student as linked either way.  The inserted row passes the Student
Guardian validate hooks: validate_duplicate is guarded by the same
existence check, and validate_primary_guardian is a no-op because
is_primary is 0. -/
def link_students (db : InviteDB) (g : Guardian) :
    List GuardianInviteStudentRow → InviteDB × List String
  | [] => (db, [])
  | row :: rest =>
    let db' :=
      if db.student_guardians.any
          (fun sg => sg.student == row.student && sg.guardian == g.name) then
        db
      else
        let sg : StudentGuardianRow :=
          { name := fresh_sg_name db
            student := row.student
            student_name :=
              match db.students.find? (fun s => s.name == row.student) with
              | some s => s.student_name
              | none => ""
            guardian := g.name
            guardian_name := g.full_name
            relation := "Guardian"
            is_primary := false
            can_pickup := true
            can_receive_communications := true }
        { db with student_guardians := db.student_guardians ++ [sg] }
    let res := link_students db' g rest
    (res.1, row.student :: res.2)

/-- The result returned by accept_invitation. -/
structure AcceptResult where
  guardian_id : String
  students_linked : List String
deriving Repr, DecidableEq

/-- api/invitations.py accept_invitation: validate inputs, find the
invite by token, reject used or expired invites, find-or-create the
guardian, idempotently link every invited student, and mark the invite
used.  (The email mismatch between invite and accepter is only logged
in the source, so it does not appear in the control flow.) -/
def accept_invitation (db : InviteDB) (token : String) (user_email : String)
    (now : Int) : Except ApiError (InviteDB × AcceptResult) :=
  if token = "" then .error (.mandatory "Token is required")
  else if user_email = "" then .error (.mandatory "User email is required")
  else if valid_email user_email = false then
    .error (.validation "Invalid email address")
  else
    match db.invites.find? (fun i => i.token == token) with
    | none => .error (.doesNotExist "Invitation not found or invalid token")
    | some invite =>
      if invite.used then
        .error (.validation "This invitation has already been used")
      else if invite.is_valid now = false then
        .error (.validation "This invitation has expired")
      else
        let gdb := get_or_create_guardian db user_email
        let linked := link_students gdb.2 gdb.1 invite.student_ids
        match GuardianInvite.mark_as_used linked.1.invites invite gdb.1.name now with
        | .error e => .error e
        | .ok invites' =>
          .ok ({ linked.1 with invites := invites' },
               { guardian_id := gdb.1.name, students_linked := linked.2 })

/-! ## Trial gate (middleware/trial_access.py and api/trial.py) -/

/-- The Institution trial fields read by the access checks. -/
structure InstitutionTrial where
  is_trial : Bool
  trial_status : String
  trial_expires_at : Option Int
deriving Repr, DecidableEq

/-- Outcome of is_trial_expired: the access decision, plus whether the
asynchronous authoritative status write (_update_expired_status) was
enqueued.  Cache writes with TTL are elided; the cache read is the
explicit `cached` argument. -/
structure TrialCheck where
  expired : Bool
  enqueued_status_write : Bool
deriving Repr, DecidableEq

/-- middleware/trial_access.py is_trial_expired: cached answer wins;
otherwise non-trial and Converted institutions are never expired, a
stored "Expired" status is expired, and an Active trial whose
trial_expires_at is strictly before now is judged expired directly from
the timestamp while the status write is enqueued asynchronously. -/
def is_trial_expired (cached : Option Bool) (inst_data : Option InstitutionTrial)
    (now : Int) : TrialCheck :=
  match cached with
  | some b => { expired := b, enqueued_status_write := false }
  | none =>
    match inst_data with
    | none => { expired := false, enqueued_status_write := false }
    | some d =>
      if d.is_trial = false then { expired := false, enqueued_status_write := false }
      else if d.trial_status == "Expired" then
        { expired := true, enqueued_status_write := false }
      else if d.trial_status == "Converted" then
        { expired := false, enqueued_status_write := false }
      else
        match d.trial_expires_at with
        | some e =>
          if e < now then { expired := true, enqueued_status_write := true }
          else { expired := false, enqueued_status_write := false }
        | none => { expired := false, enqueued_status_write := false }

/-- middleware/trial_access.py ALWAYS_ALLOWED_DOCTYPES. -/
def ALWAYS_ALLOWED_DOCTYPES : List String :=
  ["User", "Role", "Role Profile", "User Permission", "Session Default Settings",
   "Error Log", "Activity Log", "Comment", "Communication", "File", "Version",
   "DocShare", "System Settings", "Website Settings", "Email Account",
   "Email Queue", "Notification Log", "ToDo", "Event", "Payment Entry",
   "Subscription", "Institution"]

/-- middleware/trial_access.py TRIAL_PROTECTED_DOCTYPES. -/
def TRIAL_PROTECTED_DOCTYPES : List String :=
  ["Student", "Guardian", "Teacher", "Academic Year", "School Level", "Grade",
   "Section", "Enrollment", "Message", "Message Recipient", "News",
   "School Event", "Event RSVP"]

/-- middleware/trial_access.py is_trial_expired_for_user: Guest and
Administrator are never gated; a user with no institution is never
gated; otherwise defer to is_trial_expired. -/
def is_trial_expired_for_user (user : String) (institution : Option String)
    (cached : Option Bool) (inst_data : Option InstitutionTrial) (now : Int) :
    TrialCheck :=
  if user = "Guest" ∨ user = "Administrator" then
    { expired := false, enqueued_status_write := false }
  else
    match institution with
    | none => { expired := false, enqueued_status_write := false }
    | some _ => is_trial_expired cached inst_data now

/-- middleware/trial_access.py check_trial_write_access, the doc_events
hook run before every insert/save/submit/cancel/trash. -/
def check_trial_write_access (user : String) (roles : List String) (doctype : String)
    (institution : Option String) (cached : Option Bool)
    (inst_data : Option InstitutionTrial) (now : Int) : Except ApiError Unit :=
  if user = "Guest" ∨ user = "Administrator" then .ok ()
  else if roles.contains "System Manager" then .ok ()
  else if ALWAYS_ALLOWED_DOCTYPES.contains doctype then .ok ()
  else if TRIAL_PROTECTED_DOCTYPES ≠ [] ∧ TRIAL_PROTECTED_DOCTYPES.contains doctype = false then
    .ok ()
  else if (is_trial_expired_for_user user institution cached inst_data now).expired then
    .error (.permission "Your trial period has expired. You cannot create or modify records.")
  else .ok ()

/-- The Institution fields used by api/trial.py extend_trial. -/
structure InstitutionDoc where
  name : String
  institution_name : String
  is_trial : Bool
  trial_status : String
  trial_started_at : Option Int
  trial_expires_at : Option Int
deriving Repr, DecidableEq

/-- The result record of extend_trial. -/
structure ExtendTrialResult where
  new_expires_at : Int
  days_added : Int
  total_days_remaining : Int
  trial_status : String
deriving Repr, DecidableEq

/-- api/trial.py extend_trial: gated to System Managers with write
permission; days must lie in 1..30; the institution must be a
non-converted trial; the new expiry is add_days(max(current expiry,
now), days) and the status is reset to Active.  `can_write` models
frappe.has_permission("Institution", "write"). -/
def extend_trial (can_write : Bool) (roles : List String) (inst : InstitutionDoc)
    (now : Int) (days : Int) : Except ApiError (InstitutionDoc × ExtendTrialResult) :=
  if can_write = false then
    .error (.permission "You don't have permission to extend trials")
  else if roles.contains "System Manager" = false then
    .error (.permission "Only System Managers can extend trial periods")
  else if days < 1 ∨ days > 30 then
    .error (.validation "Days must be between 1 and 30")
  else if inst.is_trial = false then
    .error (.validation "Institution is not on a trial plan")
  else if inst.trial_status == "Converted" then
    .error (.validation "Cannot extend trial - institution has already converted to paid plan")
  else
    let current_expires := match inst.trial_expires_at with | some e => e | none => now
    let base_time := max current_expires now
    let new_expires_at := add_days base_time days
    let inst' := { inst with trial_expires_at := some new_expires_at
                             trial_status := "Active" }
    let total_days_remaining := (new_expires_at - now) / 86400
    .ok (inst', { new_expires_at := new_expires_at, days_added := days
                  total_days_remaining := total_days_remaining
                  trial_status := "Active" })

/-! ## Student Guardian save (doctype/student_guardian/student_guardian.py) -/

/-- validate_duplicate: does another row for the same (student, guardian)
pair exist?  For a new document the existence check carries no name
exclusion; for an update it excludes the row itself. -/
def sg_duplicate_exists (db : List StudentGuardianRow) (row : StudentGuardianRow)
    (isNew : Bool) : Bool :=
  db.any (fun r =>
    r.student == row.student && r.guardian == row.guardian &&
    (isNew || r.name != row.name))

/-- validate_primary_guardian: when saving a row with is_primary set,
look for an existing primary row of the same student (excluding the row
itself on update) and clear its flag in place
(frappe.db.set_value(..., "is_primary", 0)). -/
def validate_primary_guardian (db : List StudentGuardianRow)
    (row : StudentGuardianRow) (isNew : Bool) : List StudentGuardianRow :=
  if row.is_primary then
    match db.find? (fun r =>
        r.student == row.student && r.is_primary && (isNew || r.name != row.name)) with
    | some prev =>
      db.map (fun r => if r.name == prev.name then { r with is_primary := false } else r)
    | none => db
  else db

/-- Saving a Student Guardian row: run validate (duplicate check, then
primary-flag fixup), then insert the new row or write the update back
by name. -/
def save_student_guardian (db : List StudentGuardianRow) (row : StudentGuardianRow)
    (isNew : Bool) : Except ApiError (List StudentGuardianRow) :=
  if sg_duplicate_exists db row isNew then
    .error (.validation "A relationship between this Student and Guardian already exists.")
  else
    let db' := validate_primary_guardian db row isNew
    .ok (if isNew then db' ++ [row]
         else db'.map (fun r => if r.name == row.name then row else r))

/-- The primary-guardian invariant: any two rows of the same student
that both carry the primary flag are the same row. -/
def atMostOnePrimary (db : List StudentGuardianRow) : Prop :=
  ∀ r1 ∈ db, ∀ r2 ∈ db,
    r1.student = r2.student → r1.is_primary = true → r2.is_primary = true → r1 = r2

/-! ## Audience resolution (kairos/audience.py) -/

/-- School Unit rows (name, campus, is_active). -/
structure SchoolUnitRow where
  name : String
  campus : String
  is_active : Bool
deriving Repr, DecidableEq

/-- Grade rows (name, school_unit, is_active). -/
structure GradeRow where
  name : String
  school_unit : String
  is_active : Bool
deriving Repr, DecidableEq

/-- Section rows; `gradeId` is the `grade` column and `shift` the
shift column. -/
structure SectionRow where
  name : String
  gradeId : String
  academic_year : String
  shift : String
deriving Repr, DecidableEq

/-- Student Enrollment rows; `sectionId` is the `section` column. -/
structure EnrollmentRow where
  student : String
  sectionId : String
  academic_year : String
  status : String
deriving Repr, DecidableEq

/-- The slice of the store audience resolution reads. -/
structure AudienceDB where
  school_units : List SchoolUnitRow
  grades : List GradeRow
  sections : List SectionRow
  enrollments : List EnrollmentRow
  current_academic_year : Option String
deriving Repr, DecidableEq

/-- get_current_academic_year: the Academic Year flagged is_current. -/
def get_current_academic_year (db : AudienceDB) : Option String :=
  db.current_academic_year

/-- The section_filters dict of resolve_audience_to_students: always an
academic_year equality, optionally a grade IN clause, optionally a name
key (which short-circuits the Section query), optionally a shift
equality. -/
structure SectionFilters where
  academic_year : String
  gradeIn : Option (List String)
  nameEq : Option String
  shiftEq : Option String
deriving Repr, DecidableEq

/-- A Section row matching the filters dict (used when no name key is
present). -/
def matches_section_filters (f : SectionFilters) (s : SectionRow) : Bool :=
  s.academic_year == f.academic_year &&
  (match f.gradeIn with | some gs => gs.contains s.gradeId | none => true) &&
  (match f.shiftEq with | some sh => s.shift == sh | none => true)

/-- The tail of resolve_audience_to_students: turn the filters into the
section list (the name key bypasses the Section query entirely), then
collect active enrollments for the academic year and de-duplicate. -/
def resolve_sections_to_students (db : AudienceDB) (ay : String)
    (f : SectionFilters) : List String :=
  let sections : List String :=
    match f.nameEq with
    | some n => [n]
    | none => (db.sections.filter (matches_section_filters f)).map (fun s => s.name)
  if sections.isEmpty then []
  else
    ((db.enrollments.filter (fun e =>
        sections.contains e.sectionId && e.academic_year == ay &&
        e.status == "Active")).map (fun e => e.student)).dedup

/-- Apply the shift filter as the source does for the scoped audience
types (shift present and not "All"). -/
def shift_filter (shift : Option String) : Option String :=
  match shift with
  | some sh => if sh = "All" then none else some sh
  | none => none

/-- kairos/audience.py resolve_audience_to_students, branching on the
audience_type enumeration; a missing required scope value for the given
audience_type is a hard validation failure, while "Custom" returns the
empty list by design.  `sectionArg` is the `section` parameter. -/
def resolve_audience_to_students (db : AudienceDB) (audience_type : String)
    (campus school_unit grade sectionArg shift academic_year : Option String) :
    Except ApiError (List String) :=
  match (match academic_year with
         | some y => some y
         | none => get_current_academic_year db) with
  | none => .error (.validation "No active Academic Year found")
  | some ay =>
    if audience_type = "All School" then
      .ok (resolve_sections_to_students db ay
        { academic_year := ay, gradeIn := none, nameEq := none, shiftEq := none })
    else if audience_type = "Campus" then
      match campus with
      | none => .error (.validation "Campus is required for Campus audience type")
      | some c =>
        let school_units :=
          (db.school_units.filter (fun u => u.campus == c && u.is_active)).map (·.name)
        if school_units.isEmpty then .ok []
        else
          let grades :=
            (db.grades.filter (fun g =>
              school_units.contains g.school_unit && g.is_active)).map (·.name)
          if grades.isEmpty then .ok []
          else
            .ok (resolve_sections_to_students db ay
              { academic_year := ay, gradeIn := some grades, nameEq := none
                shiftEq := shift_filter shift })
    else if audience_type = "School Unit" then
      match school_unit with
      | none => .error (.validation "School Unit is required for School Unit audience type")
      | some su =>
        let grades :=
          (db.grades.filter (fun g => g.school_unit == su && g.is_active)).map (·.name)
        if grades.isEmpty then .ok []
        else
          .ok (resolve_sections_to_students db ay
            { academic_year := ay, gradeIn := some grades, nameEq := none
              shiftEq := shift_filter shift })
    else if audience_type = "Grade" then
      match grade with
      | none => .error (.validation "Grade is required for Grade audience type")
      | some g =>
        .ok (resolve_sections_to_students db ay
          { academic_year := ay, gradeIn := some [g], nameEq := none
            shiftEq := shift_filter shift })
    else if audience_type = "Section" then
      match sectionArg with
      | none => .error (.validation "Section is required for Section audience type")
      | some s =>
        .ok (resolve_sections_to_students db ay
          { academic_year := ay, gradeIn := none, nameEq := some s
            shiftEq := shift_filter shift })
    else if audience_type = "Custom" then
      .ok []
    else
      .error (.validation "Invalid audience type")

/-! ## Row-level permission predicates (kairos/permissions.py) -/

/-- The store slice the permission query builders read. -/
structure PermDB where
  guardians : List Guardian
  student_guardians : List StudentGuardianRow
  students : List StudentRow
deriving Repr, DecidableEq

/-- permissions.py get_current_guardian: the Guardian linked to the
session user (none for Administrator and Guest). -/
def get_current_guardian (db : PermDB) (user : String) : Option String :=
  if user = "Administrator" ∨ user = "Guest" then none
  else (db.guardians.find? (fun g => g.user == some user)).map (fun g => g.name)

/-- permissions.py get_guardian_students: students linked to a guardian
through Student Guardian rows. -/
def get_guardian_students (db : PermDB) (guardian : String) : List String :=
  (db.student_guardians.filter (fun sg => sg.guardian == guardian)).map
    (fun sg => sg.student)

/-- The staff roles that see everything in news_query and
school_event_query. -/
def staff_view_all_roles : List String :=
  ["School Admin", "Administrator", "System Manager", "School Manager",
   "Secretary", "Teacher"]

/-- One scope branch of the built SQL fragment:
(scope_type = '<level>' AND <level column> IN (values)). -/
inductive ScopeCond where
  | instIn (vals : List String)
  | campusIn (vals : List String)
  | gradeIn (vals : List String)
  | sectionIn (vals : List String)
deriving Repr, DecidableEq

/-- The SQL fragment a permission query function returns: the empty
string (no restriction), "1=0" (deny all), a status = 'Published'
condition, or the OR-join of scope branches. -/
inductive QueryCond where
  | unrestricted
  | denyAll
  | statusPublished
  | orOf (cs : List ScopeCond)
deriving Repr, DecidableEq

/-- The scope columns of a News or School Event row that the SQL
fragment reads; `sectionRef` is the `section` column. -/
structure ScopedRow where
  status : String
  scope_type : String
  institution : Option String
  campus : Option String
  grade : Option String
  sectionRef : Option String
deriving Repr, DecidableEq

/-- SQL semantics of one scope branch on a row (a NULL column never
matches an IN list). -/
def evalScope (row : ScopedRow) : ScopeCond → Bool
  | .instIn vals =>
    row.scope_type == "Institution" &&
    (match row.institution with | some v => vals.contains v | none => false)
  | .campusIn vals =>
    row.scope_type == "Campus" &&
    (match row.campus with | some v => vals.contains v | none => false)
  | .gradeIn vals =>
    row.scope_type == "Grade" &&
    (match row.grade with | some v => vals.contains v | none => false)
  | .sectionIn vals =>
    row.scope_type == "Section" &&
    (match row.sectionRef with | some v => vals.contains v | none => false)

/-- SQL semantics of a whole returned fragment on a row. -/
def evalQuery (row : ScopedRow) : QueryCond → Bool
  | .unrestricted => true
  | .denyAll => false
  | .statusPublished => row.status == "Published"
  | .orOf cs => cs.any (evalScope row)

/-- The scope-branch construction shared verbatim by news_query and
school_event_query: collect the linked students' scope values per level
(the source's list(set(...)) is .filterMap then .dedup) and emit one
branch per level that contributed at least one value.  The `conditions`
list holding the status = 'Published' condition is built by the source
but never merged into the returned fragment; the dead binding is kept
here as in the source. -/
def parent_scope_query (db : PermDB) (user : String) : QueryCond :=
  match get_current_guardian db user with
  | none => .denyAll
  | some guardian =>
    let students := get_guardian_students db guardian
    if students.isEmpty then .denyAll
    else
      let student_data := db.students.filter (fun s => students.contains s.name)
      if student_data.isEmpty then .denyAll
      else
        let _conditions := [QueryCond.statusPublished]
        let institutions := (student_data.filterMap (fun s => s.institution)).dedup
        let campuses := (student_data.filterMap (fun s => s.campus)).dedup
        let grades := (student_data.filterMap (fun s => s.current_grade)).dedup
        let sections := (student_data.filterMap (fun s => s.current_section)).dedup
        let scope_conditions : List ScopeCond :=
          (if institutions.isEmpty then [] else [.instIn institutions]) ++
          (if campuses.isEmpty then [] else [.campusIn campuses]) ++
          (if grades.isEmpty then [] else [.gradeIn grades]) ++
          (if sections.isEmpty then [] else [.sectionIn sections])
        if scope_conditions.isEmpty then .denyAll else .orOf scope_conditions

/-- permissions.py news_query: staff roles are unrestricted; a Parent
gets the scope OR-fragment over their children's hierarchy values;
everyone else (including a Parent with no guardian link) gets 1=0. -/
def news_query (db : PermDB) (user : String) (roles : List String) : QueryCond :=
  if staff_view_all_roles.any (fun r => roles.contains r) then .unrestricted
  else if roles.contains "Parent" then parent_scope_query db user
  else .denyAll

/-- permissions.py school_event_query: identical control flow to
news_query over the School Event table. -/
def school_event_query (db : PermDB) (user : String) (roles : List String) : QueryCond :=
  if staff_view_all_roles.any (fun r => roles.contains r) then .unrestricted
  else if roles.contains "Parent" then parent_scope_query db user
  else .denyAll

/-- The Parent viewer's resolved student list, as the queries compute
it (empty when there is no guardian link). -/
def parent_students (db : PermDB) (user : String) : List String :=
  match get_current_guardian db user with
  | some g => get_guardian_students db g
  | none => []

/-- The Student rows feeding the viewer's scope values. -/
def parent_student_data (db : PermDB) (user : String) : List StudentRow :=
  db.students.filter (fun s => (parent_students db user).contains s.name)

/-- The viewer's institution values, as the query builders collect
them. -/
def viewer_institutions (db : PermDB) (user : String) : List String :=
  ((parent_student_data db user).filterMap (fun s => s.institution)).dedup


/-- The viewer's campus values. -/
def viewer_campuses (db : PermDB) (user : String) : List String :=
  ((parent_student_data db user).filterMap (fun s => s.campus)).dedup


/-- The viewer's grade values. -/
def viewer_grades (db : PermDB) (user : String) : List String :=
  ((parent_student_data db user).filterMap (fun s => s.current_grade)).dedup


/-- The viewer's section values. -/
def viewer_sections (db : PermDB) (user : String) : List String :=
  ((parent_student_data db user).filterMap (fun s => s.current_section)).dedup


/-- The semantic reading of the Parent scope predicate: the row matches
one of the viewer's scope branches (a branch can only fire when the
viewer contributes at least one value at that level). -/
def parent_scope_match (db : PermDB) (user : String) (row : ScopedRow) : Prop :=
  (row.scope_type = "Institution" ∧
    ∃ v, row.institution = some v ∧ v ∈ viewer_institutions db user) ∨
  (row.scope_type = "Campus" ∧
    ∃ v, row.campus = some v ∧ v ∈ viewer_campuses db user) ∨
  (row.scope_type = "Grade" ∧
    ∃ v, row.grade = some v ∧ v ∈ viewer_grades db user) ∨
  (row.scope_type = "Section" ∧
    ∃ v, row.sectionRef = some v ∧ v ∈ viewer_sections db user)


/-- A concrete permission store: one Parent guardian linked to one
student that carries an institution value. -/
def perm_demo_db : PermDB :=
  { guardians := [{ name := "GRD-1", email := "p@x.com", first_name := "Pat"
                    last_name := "", mobile := "", user := some "p@x.com" }]
    student_guardians := [{ name := "SG-1", student := "STU-1", student_name := "Ana"
                            guardian := "GRD-1", guardian_name := "Pat"
                            relation := "Mother", is_primary := false
                            can_pickup := true, can_receive_communications := true }]
    students := [{ name := "STU-1", student_name := "Ana"
                   institution := some "INST-1", campus := none
                   current_grade := none, current_section := none }] }


/-- An unpublished Institution-scoped row inside the demo viewer's
scope. -/
def draft_scoped_row : ScopedRow :=
  { status := "Draft", scope_type := "Institution", institution := some "INST-1"
    campus := none, grade := none, sectionRef := none }


/-- A concrete store with one Pending invitation for two students. -/
def invite_demo_db : InviteDB :=
  { invites := [{ name := "GINV-1", token := "tok-1", email := "p@x.com"
                  institution := "INST-1"
                  student_ids := [{ student := "STU-1", student_name := "Ana" },
                                  { student := "STU-2", student_name := "Ben" }]
                  expires := some 100, used := false, used_at := none
                  guardian := none }]
    guardians := []
    student_guardians := []
    students := [{ name := "STU-1", student_name := "Ana"
                   institution := some "INST-1", campus := none
                   current_grade := none, current_section := none },
                 { name := "STU-2", student_name := "Ben"
                   institution := some "INST-1", campus := none
                   current_grade := none, current_section := none }]
    users := [] }


/-! ## Theorems -/

/-- C9: get_invitation derives the status as "Used" whenever the used
flag is set regardless of expiry, else "Expired" when the expiry is
strictly before now, else "Pending"; is_valid is true exactly when the
status is "Pending". -/
theorem get_invitation_status_used_precedence
    (invites : List GuardianInvite) (token : String) (now : Int)
    (inv : GuardianInvite)
    (htok : token ≠ "")
    (hfind : invites.find? (fun i => i.token == token) = some inv) :
    ∃ v, get_invitation invites token now = .ok v ∧
      (inv.used = true → v.status = "Used" ∧ v.is_valid = false) ∧
      (inv.used = false → ∀ e, inv.expires = some e → e < now →
        v.status = "Expired" ∧ v.is_valid = false) ∧
      (inv.used = false → inv.expires = none →
        v.status = "Pending" ∧ v.is_valid = true) ∧
      (inv.used = false → ∀ e, inv.expires = some e → ¬ e < now →
        v.status = "Pending" ∧ v.is_valid = true) ∧
      (v.is_valid = true ↔ v.status = "Pending") := by
  have hok : get_invitation invites token now = .ok
      { invitation_id := inv.name, email := inv.email
        students := inv.student_ids.map (·.student), expires_at := inv.expires
        status := (invite_derived_status inv now).1
        is_valid := (invite_derived_status inv now).2 } := by
    simp [get_invitation, htok, hfind]
  refine ⟨_, hok, ?_, ?_, ?_, ?_, ?_⟩ <;>
    simp only [invite_derived_status]
  · intro hu
    simp [hu]
  · intro hu e he hlt
    simp [hu, he, hlt]
  · intro hu he
    simp [hu, he]
  · intro hu e he hlt
    simp [hu, he, hlt]
  · rcases hu : inv.used with _ | _
    · rcases he : inv.expires with _ | e
      · simp [hu, he]
      · by_cases hlt : e < now <;> simp [hu, he, hlt]
    · simp [hu]

/-- Witness for C9 at a concrete invite that is both used and past its
expiry: the reported status is "Used". -/
theorem get_invitation_status_used_precedence_witness :
    ∃ v, get_invitation
      [{ name := "GINV-1", token := "tok", email := "p@x.com", institution := "INST-1"
         student_ids := [], expires := some 0, used := true, used_at := none
         guardian := none }] "tok" 10 = .ok v ∧
      v.status = "Used" ∧ v.is_valid = false := by
  obtain ⟨v, hok, h1, -, -, -, -⟩ :=
    get_invitation_status_used_precedence
      [{ name := "GINV-1", token := "tok", email := "p@x.com", institution := "INST-1"
         student_ids := [], expires := some 0, used := true, used_at := none
         guardian := none }] "tok" 10
      { name := "GINV-1", token := "tok", email := "p@x.com", institution := "INST-1"
        student_ids := [], expires := some 0, used := true, used_at := none
        guardian := none }
      (by decide) (by decide)
  exact ⟨v, hok, h1 rfl⟩

/-- C7: resolve_audience_to_students raises a validation error whenever
the scope value its audience_type requires is missing (Campus, School
Unit, Grade, Section), and returns the empty list for "Custom". -/
theorem resolve_audience_missing_scope_errors
    (db : AudienceDB) (campus school_unit grade sectionArg shift : Option String)
    (y : String) :
    resolve_audience_to_students db "Campus" none school_unit grade sectionArg
        shift (some y) =
      .error (.validation "Campus is required for Campus audience type") ∧
    resolve_audience_to_students db "School Unit" campus none grade sectionArg
        shift (some y) =
      .error (.validation "School Unit is required for School Unit audience type") ∧
    resolve_audience_to_students db "Grade" campus school_unit none sectionArg
        shift (some y) =
      .error (.validation "Grade is required for Grade audience type") ∧
    resolve_audience_to_students db "Section" campus school_unit grade none
        shift (some y) =
      .error (.validation "Section is required for Section audience type") ∧
    resolve_audience_to_students db "Custom" campus school_unit grade sectionArg
        shift (some y) = .ok [] := by
  refine ⟨?_, ?_, ?_, ?_, ?_⟩ <;> simp [resolve_audience_to_students]

/-- Writing a document back by name leaves the token-lookup result at
the updated document, provided document names are unique and the update
keeps name and token. -/
theorem find_token_after_write_by_name
    (invites : List GuardianInvite) (tok : String) (inv inv' : GuardianInvite)
    (hnd : (invites.map (fun i => i.name)).Nodup)
    (hfind : invites.find? (fun i => i.token == tok) = some inv)
    (hname : inv'.name = inv.name) (htok : inv'.token = inv.token) :
    (invites.map (fun i => if i.name == inv.name then inv' else i)).find?
      (fun i => i.token == tok) = some inv' := by
  induction invites with
  | nil => simp at hfind
  | cons a rest ih =>
    rcases List.nodup_cons.mp hnd with ⟨hna, hndr⟩
    simp only [List.find?_cons] at hfind
    cases hpa : (a.token == tok) with
    | true =>
      simp only [hpa] at hfind
      obtain rfl : a = inv := by simpa using hfind
      simp only [List.map_cons, beq_self_eq_true, if_true]
      exact List.find?_cons_of_pos _ (by simpa [htok] using hpa)
    | false =>
      simp only [hpa] at hfind
      have hmem : inv ∈ rest := List.mem_of_find?_eq_some hfind
      have hne : a.name ≠ inv.name := by
        intro h
        have : inv.name ∈ rest.map (fun i => i.name) :=
          List.mem_map_of_mem (fun i => i.name) hmem
        rw [← h] at this
        exact hna this
      rw [List.map_cons, if_neg (by simpa using hne), List.find?_cons_of_neg]
      · exact ih hndr hfind
      · simp [hpa]

/-- C5: revoke_invitation fails with a state-conflict (validation)
error on a used invitation and on an expired one; on a Pending
invitation it succeeds by forcing expires to now, after which
get_invitation on the same token reports "Expired" exactly as for a
naturally expired invite. -/
theorem revoke_invitation_pending_only_then_expired
    (invites : List GuardianInvite) (invitation_id : String) (now : Int)
    (inv : GuardianInvite)
    (hid : invitation_id ≠ "")
    (hfind : invites.find? (fun i => i.name == invitation_id) = some inv) :
    (inv.used = true →
      revoke_invitation invites invitation_id now =
        .error (.validation "Cannot revoke invitation: it has already been used")) ∧
    (inv.used = false → ∀ e, inv.expires = some e → e < now →
      revoke_invitation invites invitation_id now =
        .error (.validation "Cannot revoke invitation: it has already expired")) ∧
    (inv.used = false →
      (∀ e, inv.expires = some e → ¬ e < now) →
      (inv.email = "" ∨ valid_email inv.email = true) →
      revoke_invitation invites invitation_id now =
        .ok (invites.map (fun i =>
          if i.name == inv.name then { inv with expires := some now } else i)) ∧
      (∀ tok now', tok ≠ "" →
        (invites.map (fun i => i.name)).Nodup →
        invites.find? (fun i => i.token == tok) = some inv →
        now < now' →
        ∃ v, get_invitation
            (invites.map (fun i =>
              if i.name == inv.name then { inv with expires := some now } else i))
            tok now' = .ok v ∧
          v.status = "Expired" ∧ v.is_valid = false)) := by
  refine ⟨?_, ?_, ?_⟩
  · intro hu
    simp [revoke_invitation, hid, hfind, hu]
  · intro hu e he hlt
    simp [revoke_invitation, hid, hfind, hu, he, hlt]
  · intro hu hnexp hemail
    have hexpcond :
        (match inv.expires with | some e => decide (e < now) | none => false) = false := by
      cases he : inv.expires with
      | none => rfl
      | some e => simpa using hnexp e he
    have hval : GuardianInvite.validate_on_save { inv with expires := some now }
        (invites.find? (fun i => i.name == inv.name)) now = .ok () := by
      simp only [GuardianInvite.validate_on_save]
      rcases hemail with h | h <;> simp [h, hu]
    simp only [hu] at hval
    have hok : revoke_invitation invites invitation_id now =
        .ok (invites.map (fun i =>
          if i.name == inv.name then { inv with expires := some now } else i)) := by
      simp [revoke_invitation, hid, hfind, hu, hexpcond, save_guardian_invite, hval]
    refine ⟨hok, ?_⟩
    intro tok now' htokne hnd htfind hlt
    have hfound := find_token_after_write_by_name invites tok inv
      { inv with expires := some now } hnd htfind rfl rfl
    refine ⟨{ invitation_id := inv.name, email := inv.email
              students := inv.student_ids.map (fun r => r.student)
              expires_at := some now
              status := "Expired", is_valid := false }, ?_, rfl, rfl⟩
    unfold get_invitation
    rw [if_neg htokne, hfound]
    have hst : invite_derived_status { inv with expires := some now } now' =
        ("Expired", false) := by
      simp [invite_derived_status, hu, hlt]
    simp [hst]

/-- Witness for C5: revoking a used invite fails; revoking a concrete
Pending invite succeeds and get_invitation then reports "Expired". -/
theorem revoke_invitation_pending_only_then_expired_witness :
    revoke_invitation
        [{ name := "GINV-2", token := "tok2", email := "p@x.com", institution := "I"
           student_ids := [], expires := some 100, used := true, used_at := none
           guardian := none }] "GINV-2" 50 =
      .error (.validation "Cannot revoke invitation: it has already been used") ∧
    ∃ invites' v,
      revoke_invitation
          [{ name := "GINV-1", token := "tok", email := "p@x.com", institution := "I"
             student_ids := [], expires := some 100, used := false, used_at := none
             guardian := none }] "GINV-1" 50 = .ok invites' ∧
      get_invitation invites' "tok" 60 = .ok v ∧
      v.status = "Expired" ∧ v.is_valid = false := by
  constructor
  · have h := revoke_invitation_pending_only_then_expired
      [{ name := "GINV-2", token := "tok2", email := "p@x.com", institution := "I"
         student_ids := [], expires := some 100, used := true, used_at := none
         guardian := none }] "GINV-2" 50
      { name := "GINV-2", token := "tok2", email := "p@x.com", institution := "I"
        student_ids := [], expires := some 100, used := true, used_at := none
        guardian := none } (by decide) (by decide)
    exact h.1 rfl
  · have h := revoke_invitation_pending_only_then_expired
      [{ name := "GINV-1", token := "tok", email := "p@x.com", institution := "I"
         student_ids := [], expires := some 100, used := false, used_at := none
         guardian := none }] "GINV-1" 50
      { name := "GINV-1", token := "tok", email := "p@x.com", institution := "I"
        student_ids := [], expires := some 100, used := false, used_at := none
        guardian := none } (by decide) (by decide)
    obtain ⟨hok, hget⟩ := h.2.2 rfl
      (by intro e he; cases he; decide) (Or.inr (by decide))
    obtain ⟨v, hv, hs, hvd⟩ := hget "tok" 60 (by decide) (by decide) (by decide) (by decide)
    exact ⟨_, v, hok, hv, hs, hvd⟩

/-- C6: resend_invitation fails only when the invite is already used;
on any unused invite (expired or not) it succeeds, sets expires to
now + new_expiration_days, and changes no other field — in particular
the token stays the one generated at creation. -/
theorem resend_invitation_extends_expiry_only
    (invites : List GuardianInvite) (invitation_id : String) (days now : Int)
    (inv : GuardianInvite)
    (hid : invitation_id ≠ "")
    (hfind : invites.find? (fun i => i.name == invitation_id) = some inv) :
    (inv.used = true →
      resend_invitation invites invitation_id days now =
        .error (.validation "Cannot resend invitation: it has already been used")) ∧
    (inv.used = false →
      (inv.email = "" ∨ valid_email inv.email = true) →
      resend_invitation invites invitation_id days now =
        .ok (invites.map (fun i =>
               if i.name == inv.name then { inv with expires := some (add_days now days) }
               else i),
             { invitation_id := inv.name, token := inv.token
               new_expires_at := add_days now days }) ∧
      ({ inv with expires := some (add_days now days) } : GuardianInvite).token = inv.token ∧
      ({ inv with expires := some (add_days now days) } : GuardianInvite).name = inv.name ∧
      ({ inv with expires := some (add_days now days) } : GuardianInvite).email = inv.email ∧
      ({ inv with expires := some (add_days now days) } : GuardianInvite).institution =
        inv.institution ∧
      ({ inv with expires := some (add_days now days) } : GuardianInvite).student_ids =
        inv.student_ids ∧
      ({ inv with expires := some (add_days now days) } : GuardianInvite).used = inv.used ∧
      ({ inv with expires := some (add_days now days) } : GuardianInvite).used_at =
        inv.used_at ∧
      ({ inv with expires := some (add_days now days) } : GuardianInvite).guardian =
        inv.guardian) := by
  constructor
  · intro hu
    simp [resend_invitation, hid, hfind, hu]
  · intro hu hemail
    have hval : GuardianInvite.validate_on_save
        { inv with expires := some (add_days now days) }
        (invites.find? (fun i => i.name == inv.name)) now = .ok () := by
      simp only [GuardianInvite.validate_on_save]
      rcases hemail with h | h <;> simp [h, hu]
    simp only [hu] at hval
    refine ⟨?_, rfl, rfl, rfl, rfl, rfl, rfl, rfl, rfl⟩
    simp [resend_invitation, hid, hfind, hu, save_guardian_invite, hval]

/-- Witness for C6: resending a concrete invite whose expiry is already
in the past succeeds and only moves the expiry. -/
theorem resend_invitation_extends_expiry_only_witness :
    resend_invitation
        [{ name := "GINV-1", token := "tok", email := "p@x.com", institution := "I"
           student_ids := [], expires := some 10, used := false, used_at := none
           guardian := none }] "GINV-1" 7 50 =
      .ok ([{ name := "GINV-1", token := "tok", email := "p@x.com", institution := "I"
              student_ids := [], expires := some 604850, used := false, used_at := none
              guardian := none }],
           { invitation_id := "GINV-1", token := "tok", new_expires_at := 604850 }) := by
  have h := resend_invitation_extends_expiry_only
    [{ name := "GINV-1", token := "tok", email := "p@x.com", institution := "I"
       student_ids := [], expires := some 10, used := false, used_at := none
       guardian := none }] "GINV-1" 7 50
    { name := "GINV-1", token := "tok", email := "p@x.com", institution := "I"
      student_ids := [], expires := some 10, used := false, used_at := none
      guardian := none } (by decide) (by decide)
  have h2 := (h.2 rfl (Or.inr (by decide))).1
  simpa [add_days, secondsPerDay] using h2

/-- C2: an Active trial whose expiry timestamp is strictly in the past
is judged expired by is_trial_expired directly from the timestamp (no
stored "Expired" status is needed, only the asynchronous status write
is scheduled), and the write gate therefore rejects writes to protected
doctypes for ordinary users of that institution. -/
theorem trial_expiry_inferred_from_timestamp
    (d : InstitutionTrial) (now e : Int)
    (htrial : d.is_trial = true) (hstatus : d.trial_status = "Active")
    (hexp : d.trial_expires_at = some e) (hlt : e < now) :
    is_trial_expired none (some d) now =
      { expired := true, enqueued_status_write := true } ∧
    (∀ user roles doctype institution,
      user ≠ "Guest" → user ≠ "Administrator" →
      roles.contains "System Manager" = false →
      TRIAL_PROTECTED_DOCTYPES.contains doctype = true →
      ALWAYS_ALLOWED_DOCTYPES.contains doctype = false →
      check_trial_write_access user roles doctype (some institution) none (some d) now =
        .error (.permission
          "Your trial period has expired. You cannot create or modify records.")) := by
  have hmain : is_trial_expired none (some d) now =
      { expired := true, enqueued_status_write := true } := by
    simp [is_trial_expired, htrial, hstatus, hexp, hlt]
  refine ⟨hmain, ?_⟩
  intro user roles doctype institution hg ha hsm hprot hallow
  have hsm' : "System Manager" ∉ roles := by simpa using hsm
  have hprot' : doctype ∈ TRIAL_PROTECTED_DOCTYPES := by simpa using hprot
  have hallow' : doctype ∉ ALWAYS_ALLOWED_DOCTYPES := by simpa using hallow
  simp [check_trial_write_access, hg, ha, hsm', hprot', hallow',
        is_trial_expired_for_user, hmain]

/-- Witness for C2 at a concrete Active-but-past-expiry institution:
the decision is expired and a Student write by a Parent is rejected. -/
theorem trial_expiry_inferred_from_timestamp_witness :
    is_trial_expired none
        (some { is_trial := true, trial_status := "Active", trial_expires_at := some 0 }) 1 =
      { expired := true, enqueued_status_write := true } ∧
    check_trial_write_access "parent@x.com" ["Parent"] "Student" (some "INST-1") none
        (some { is_trial := true, trial_status := "Active", trial_expires_at := some 0 }) 1 =
      .error (.permission
        "Your trial period has expired. You cannot create or modify records.") := by
  have h := trial_expiry_inferred_from_timestamp
    { is_trial := true, trial_status := "Active", trial_expires_at := some 0 } 1 0
    rfl rfl rfl (by decide)
  exact ⟨h.1, h.2 "parent@x.com" ["Parent"] "Student" "INST-1"
    (by decide) (by decide) (by decide) (by decide) (by decide)⟩

/-- C3: extend_trial on a non-converted trial computes the new expiry
as add_days(max(previous expiry, now), days): it extends from the
previous expiry while that is still in the future, from now once
expired, and never moves an existing expiry earlier. -/
theorem extend_trial_from_max_of_now_and_expiry
    (can_write : Bool) (roles : List String) (inst : InstitutionDoc)
    (now days : Int)
    (hw : can_write = true) (hrole : roles.contains "System Manager" = true)
    (hdays1 : 1 ≤ days) (hdays30 : days ≤ 30)
    (htrial : inst.is_trial = true) (hconv : inst.trial_status ≠ "Converted") :
    ∃ inst' r,
      extend_trial can_write roles inst now days = .ok (inst', r) ∧
      r.new_expires_at =
        max (match inst.trial_expires_at with | some e => e | none => now) now +
          days * 86400 ∧
      inst'.trial_expires_at = some r.new_expires_at ∧
      inst'.trial_status = "Active" ∧
      r.days_added = days ∧
      (∀ e, inst.trial_expires_at = some e → now ≤ e →
        r.new_expires_at = e + days * 86400) ∧
      (∀ e, inst.trial_expires_at = some e → e < now →
        r.new_expires_at = now + days * 86400) ∧
      (inst.trial_expires_at = none → r.new_expires_at = now + days * 86400) ∧
      (∀ e, inst.trial_expires_at = some e → e < r.new_expires_at) := by
  have hdays : ¬ (days < 1 ∨ days > 30) := by omega
  have hconvb : (inst.trial_status == "Converted") = false := by
    simpa using hconv
  have hrole' : "System Manager" ∈ roles := by simpa using hrole
  have hok : extend_trial can_write roles inst now days =
      .ok ({ inst with
               trial_expires_at := some (add_days
                 (max (match inst.trial_expires_at with | some e => e | none => now) now)
                 days)
               trial_status := "Active" },
           { new_expires_at := add_days
               (max (match inst.trial_expires_at with | some e => e | none => now) now)
               days
             days_added := days
             total_days_remaining := (add_days
               (max (match inst.trial_expires_at with | some e => e | none => now) now)
               days - now) / 86400
             trial_status := "Active" }) := by
    simp [extend_trial, hw, hrole', hdays, htrial, hconvb]
  refine ⟨_, _, hok, by simp [add_days, secondsPerDay], rfl, rfl, rfl, ?_, ?_, ?_, ?_⟩
  · intro e he hle
    simp only [he, add_days, secondsPerDay]
    omega
  · intro e he hlt
    simp only [he, add_days, secondsPerDay]
    omega
  · intro hnone
    simp only [hnone, add_days, secondsPerDay]
    omega
  · intro e he
    simp only [he, add_days, secondsPerDay]
    omega

/-- Witness for C3: a trial expiring 10 days from now extended by 7
days expires 17 days from now. -/
theorem extend_trial_from_max_of_now_and_expiry_witness :
    ∃ inst' r,
      extend_trial true ["System Manager"]
        { name := "INST-1", institution_name := "Demo School", is_trial := true
          trial_status := "Active", trial_started_at := some 0
          trial_expires_at := some 864000 } 0 7 = .ok (inst', r) ∧
      r.new_expires_at = 1468800 ∧
      inst'.trial_expires_at = some 1468800 ∧
      inst'.trial_status = "Active" := by
  obtain ⟨inst', r, hok, hnew, hexp, hstat, -, hfut, -, -, -⟩ :=
    extend_trial_from_max_of_now_and_expiry true ["System Manager"]
      { name := "INST-1", institution_name := "Demo School", is_trial := true
        trial_status := "Active", trial_started_at := some 0
        trial_expires_at := some 864000 } 0 7
      rfl (by decide) (by decide) (by decide) rfl (by decide)
  have h17 : r.new_expires_at = 1468800 := by
    have := hfut 864000 rfl (by decide)
    omega
  exact ⟨inst', r, hok, h17, by rw [hexp, h17], hstat⟩

/-- A row that is still primary after the clear-previous-primary map
was already in the table and is not the cleared row. -/
theorem mem_of_primary_after_clear (db : List StudentGuardianRow) (pname : String)
    {r : StudentGuardianRow}
    (hr : r ∈ db.map (fun x =>
      if x.name == pname then { x with is_primary := false } else x))
    (hp : r.is_primary = true) : r ∈ db ∧ r.name ≠ pname := by
  rcases List.mem_map.mp hr with ⟨a, ha, heq⟩
  by_cases hn : (a.name == pname) = true
  · rw [if_pos hn] at heq
    exfalso
    have h2 := congrArg StudentGuardianRow.is_primary heq
    rw [hp] at h2
    simp at h2
  · rw [if_neg hn] at heq
    subst heq
    exact ⟨ha, by simpa using hn⟩

/-- A member of the write-back map is either the written row or an
untouched original row whose name differs from the written one. -/
theorem mem_of_write_back {db : List StudentGuardianRow} {row r : StudentGuardianRow}
    (hr : r ∈ db.map (fun x => if x.name = row.name then row else x)) :
    r = row ∨ (r ∈ db ∧ r.name ≠ row.name) := by
  rcases List.mem_map.mp hr with ⟨a, ha, heq⟩
  by_cases hn : a.name = row.name
  · rw [if_pos hn] at heq
    exact Or.inl heq.symm
  · rw [if_neg hn] at heq
    subst heq
    exact Or.inr ⟨ha, hn⟩

/-- C4: saving a Student Guardian row preserves the at-most-one-primary
invariant for every student, and when the saved row carries the primary
flag while another row of the same student already holds it, that prior
holder's flag is cleared by the save. -/
theorem student_guardian_primary_invariant_preserved
    (db : List StudentGuardianRow) (row : StudentGuardianRow) (isNew : Bool)
    (hinv : atMostOnePrimary db) (db' : List StudentGuardianRow)
    (hsave : save_student_guardian db row isNew = .ok db') :
    atMostOnePrimary db' ∧
    (∀ prev ∈ db, row.is_primary = true → prev.is_primary = true →
      prev.student = row.student → prev.name ≠ row.name →
      ∀ r ∈ db', r.name = prev.name → r.is_primary = false) := by
  have hdup : sg_duplicate_exists db row isNew = false := by
    by_contra h
    rw [Bool.not_eq_false] at h
    simp [save_student_guardian, h] at hsave
  cases isNew with
  | true =>
    simp [save_student_guardian, hdup] at hsave
    subst hsave
    cases hrp : row.is_primary with
    | false =>
      have hvp : validate_primary_guardian db row true = db := by
        simp [validate_primary_guardian, hrp]
      rw [hvp]
      constructor
      · intro r1 h1 r2 h2 hst hp1 hp2
        rcases List.mem_append.mp h1 with h1d | h1r
        · rcases List.mem_append.mp h2 with h2d | h2r
          · exact hinv r1 h1d r2 h2d hst hp1 hp2
          · have h2eq : r2 = row := by simpa using h2r
            exact absurd hp2 (by rw [h2eq, hrp]; decide)
        · have h1eq : r1 = row := by simpa using h1r
          exact absurd hp1 (by rw [h1eq, hrp]; decide)
      · intro prev hprev hrowp hprevp hpst hpname r hr hrname
        exact absurd hrowp (by decide)
    | true =>
      rcases hfind : db.find? (fun r => r.student == row.student && r.is_primary)
          with _ | prev0
      · have hnone := List.find?_eq_none.mp hfind
        have hvp : validate_primary_guardian db row true = db := by
          simp [validate_primary_guardian, hrp, hfind]
        rw [hvp]
        constructor
        · intro r1 h1 r2 h2 hst hp1 hp2
          rcases List.mem_append.mp h1 with h1d | h1r
          · rcases List.mem_append.mp h2 with h2d | h2r
            · exact hinv r1 h1d r2 h2d hst hp1 hp2
            · have h2eq : r2 = row := by simpa using h2r
              exfalso
              apply hnone r1 h1d
              have hs : r1.student = row.student := by rw [hst, h2eq]
              simp [hs, hp1]
          · have h1eq : r1 = row := by simpa using h1r
            rcases List.mem_append.mp h2 with h2d | h2r
            · exfalso
              apply hnone r2 h2d
              have hs : r2.student = row.student := by rw [← hst, h1eq]
              simp [hs, hp2]
            · have h2eq : r2 = row := by simpa using h2r
              rw [h1eq, h2eq]
        · intro prev hprev hrowp hprevp hpst hpname r hr hrname
          exfalso
          apply hnone prev hprev
          simp [hprevp, hpst]
      · have hp0 := List.find?_some hfind
        simp only [Bool.and_eq_true, beq_iff_eq] at hp0
        obtain ⟨hst0, hprim0⟩ := hp0
        have hm0 : prev0 ∈ db := List.mem_of_find?_eq_some hfind
        have hB : ∀ a ∈ db, a.is_primary = true → a.student = row.student → a = prev0 := by
          intro a ha hap has
          exact hinv a ha prev0 hm0 (by rw [has, hst0]) hap hprim0
        have hC : ∀ r ∈ db.map (fun x =>
            if x.name == prev0.name then { x with is_primary := false } else x),
            r.is_primary = true → r.student ≠ row.student := by
          intro r hr hp hs
          obtain ⟨hrdb, hrname⟩ := mem_of_primary_after_clear db prev0.name hr hp
          exact hrname (by rw [hB r hrdb hp hs])
        have hvp : validate_primary_guardian db row true = db.map (fun x =>
            if x.name == prev0.name then { x with is_primary := false } else x) := by
          simp [validate_primary_guardian, hrp, hfind]
        rw [hvp]
        constructor
        · intro r1 h1 r2 h2 hst hp1 hp2
          rcases List.mem_append.mp h1 with h1c | h1r
          · rcases List.mem_append.mp h2 with h2c | h2r
            · obtain ⟨h1db, -⟩ := mem_of_primary_after_clear db prev0.name h1c hp1
              obtain ⟨h2db, -⟩ := mem_of_primary_after_clear db prev0.name h2c hp2
              exact hinv r1 h1db r2 h2db hst hp1 hp2
            · have h2eq : r2 = row := by simpa using h2r
              exact absurd (by rw [hst, h2eq]) (hC r1 h1c hp1)
          · have h1eq : r1 = row := by simpa using h1r
            rcases List.mem_append.mp h2 with h2c | h2r
            · exact absurd (by rw [← hst, h1eq]) (hC r2 h2c hp2)
            · have h2eq : r2 = row := by simpa using h2r
              rw [h1eq, h2eq]
        · intro prev hprev hrowp hprevp hpst hpname r hr hrname
          have hpeq : prev = prev0 := hB prev hprev hprevp hpst
          rcases List.mem_append.mp hr with hrc | hrr
          · rcases List.mem_map.mp hrc with ⟨a, ha, heq⟩
            by_cases hn : (a.name == prev0.name) = true
            · rw [if_pos hn] at heq
              rw [← heq]
            · rw [if_neg hn] at heq
              exfalso
              apply hn
              exact beq_iff_eq.mpr (by rw [heq, hrname, hpeq])
          · have hreq : r = row := by simpa using hrr
            exfalso
            apply hpname
            rw [← hrname, hreq]
  | false =>
    simp [save_student_guardian, hdup] at hsave
    subst hsave
    cases hrp : row.is_primary with
    | false =>
      have hvp : validate_primary_guardian db row false = db := by
        simp [validate_primary_guardian, hrp]
      rw [hvp]
      constructor
      · intro r1 h1 r2 h2 hst hp1 hp2
        rcases mem_of_write_back h1 with h1row | ⟨h1db, -⟩
        · exact absurd hp1 (by rw [h1row, hrp]; decide)
        · rcases mem_of_write_back h2 with h2row | ⟨h2db, -⟩
          · exact absurd hp2 (by rw [h2row, hrp]; decide)
          · exact hinv r1 h1db r2 h2db hst hp1 hp2
      · intro prev hprev hrowp hprevp hpst hpname r hr hrname
        exact absurd hrowp (by decide)
    | true =>
      rcases hfind : db.find? (fun r =>
          r.student == row.student && r.is_primary && r.name != row.name)
          with _ | prev0
      · have hnone := List.find?_eq_none.mp hfind
        have hvp : validate_primary_guardian db row false = db := by
          simp [validate_primary_guardian, hrp, hfind]
        rw [hvp]
        constructor
        · intro r1 h1 r2 h2 hst hp1 hp2
          rcases mem_of_write_back h1 with h1row | ⟨h1db, h1n⟩
          · rcases mem_of_write_back h2 with h2row | ⟨h2db, h2n⟩
            · rw [h1row, h2row]
            · exfalso
              apply hnone r2 h2db
              have hs : r2.student = row.student := by rw [← hst, h1row]
              simp [hs, hp2, bne_iff_ne, h2n]
          · rcases mem_of_write_back h2 with h2row | ⟨h2db, h2n⟩
            · exfalso
              apply hnone r1 h1db
              have hs : r1.student = row.student := by rw [hst, h2row]
              simp [hs, hp1, bne_iff_ne, h1n]
            · exact hinv r1 h1db r2 h2db hst hp1 hp2
        · intro prev hprev hrowp hprevp hpst hpname r hr hrname
          exfalso
          apply hnone prev hprev
          simp [hprevp, hpst, bne_iff_ne, hpname]
      · have hp0 := List.find?_some hfind
        simp only [Bool.and_eq_true, beq_iff_eq, bne_iff_ne] at hp0
        obtain ⟨⟨hst0, hprim0⟩, hname0⟩ := hp0
        have hm0 : prev0 ∈ db := List.mem_of_find?_eq_some hfind
        have hB : ∀ a ∈ db, a.is_primary = true → a.student = row.student → a = prev0 := by
          intro a ha hap has
          exact hinv a ha prev0 hm0 (by rw [has, hst0]) hap hprim0
        have hC : ∀ r ∈ db.map (fun x =>
            if x.name == prev0.name then { x with is_primary := false } else x),
            r.is_primary = true → r.student ≠ row.student := by
          intro r hr hp hs
          obtain ⟨hrdb, hrname⟩ := mem_of_primary_after_clear db prev0.name hr hp
          exact hrname (by rw [hB r hrdb hp hs])
        have hvp : validate_primary_guardian db row false = db.map (fun x =>
            if x.name == prev0.name then { x with is_primary := false } else x) := by
          simp [validate_primary_guardian, hrp, hfind]
        rw [hvp]
        constructor
        · intro r1 h1 r2 h2 hst hp1 hp2
          rcases mem_of_write_back h1 with h1row | ⟨h1c, -⟩
          · rcases mem_of_write_back h2 with h2row | ⟨h2c, -⟩
            · rw [h1row, h2row]
            · exact absurd (by rw [← hst, h1row]) (hC r2 h2c hp2)
          · rcases mem_of_write_back h2 with h2row | ⟨h2c, -⟩
            · exact absurd (by rw [hst, h2row]) (hC r1 h1c hp1)
            · obtain ⟨h1db, -⟩ := mem_of_primary_after_clear db prev0.name h1c hp1
              obtain ⟨h2db, -⟩ := mem_of_primary_after_clear db prev0.name h2c hp2
              exact hinv r1 h1db r2 h2db hst hp1 hp2
        · intro prev hprev hrowp hprevp hpst hpname r hr hrname
          have hpeq : prev = prev0 := hB prev hprev hprevp hpst
          rcases mem_of_write_back hr with hrow | ⟨hrc, -⟩
          · exfalso
            apply hpname
            rw [← hrname, hrow]
          · rcases List.mem_map.mp hrc with ⟨a, ha, heq⟩
            by_cases hn : (a.name == prev0.name) = true
            · rw [if_pos hn] at heq
              rw [← heq]
            · rw [if_neg hn] at heq
              exfalso
              apply hn
              exact beq_iff_eq.mpr (by rw [heq, hrname, hpeq])

/-- Witness for C4: inserting a second primary row for the same student
clears the prior holder and keeps the invariant. -/
theorem student_guardian_primary_invariant_preserved_witness :
    ∃ db',
      save_student_guardian
        [{ name := "SG-1", student := "STU-1", student_name := "Ana"
           guardian := "GRD-1", guardian_name := "G1", relation := "Mother"
           is_primary := true, can_pickup := true, can_receive_communications := true }]
        { name := "SG-2", student := "STU-1", student_name := "Ana"
          guardian := "GRD-2", guardian_name := "G2", relation := "Father"
          is_primary := true, can_pickup := true, can_receive_communications := true }
        true = .ok db' ∧
      atMostOnePrimary db' ∧
      (∀ r ∈ db', r.name = "SG-1" → r.is_primary = false) := by
  have hinv : atMostOnePrimary
      [{ name := "SG-1", student := "STU-1", student_name := "Ana"
         guardian := "GRD-1", guardian_name := "G1", relation := "Mother"
         is_primary := true, can_pickup := true, can_receive_communications := true }] := by
    intro r1 h1 r2 h2 _ _ _
    simp at h1 h2
    rw [h1, h2]
  have hsave : save_student_guardian
      [{ name := "SG-1", student := "STU-1", student_name := "Ana"
         guardian := "GRD-1", guardian_name := "G1", relation := "Mother"
         is_primary := true, can_pickup := true, can_receive_communications := true }]
      { name := "SG-2", student := "STU-1", student_name := "Ana"
        guardian := "GRD-2", guardian_name := "G2", relation := "Father"
        is_primary := true, can_pickup := true, can_receive_communications := true }
      true = .ok
        [{ name := "SG-1", student := "STU-1", student_name := "Ana"
           guardian := "GRD-1", guardian_name := "G1", relation := "Mother"
           is_primary := false, can_pickup := true, can_receive_communications := true },
         { name := "SG-2", student := "STU-1", student_name := "Ana"
           guardian := "GRD-2", guardian_name := "G2", relation := "Father"
           is_primary := true, can_pickup := true, can_receive_communications := true }] := by
    rfl
  have h := student_guardian_primary_invariant_preserved _ _ true hinv _ hsave
  refine ⟨_, hsave, h.1, ?_⟩
  intro r hr hrname
  exact h.2
    { name := "SG-1", student := "STU-1", student_name := "Ana"
      guardian := "GRD-1", guardian_name := "G1", relation := "Mother"
      is_primary := true, can_pickup := true, can_receive_communications := true }
    (by simp) rfl rfl rfl (by decide) r hr (by rw [hrname])

/-- An IN-branch over the empty value list matches nothing. -/
theorem evalScope_empty_vals (row : ScopedRow) :
    evalScope row (.instIn []) = false ∧ evalScope row (.campusIn []) = false ∧
    evalScope row (.gradeIn []) = false ∧ evalScope row (.sectionIn []) = false := by
  refine ⟨?_, ?_, ?_, ?_⟩
  · cases h : row.institution <;> simp [evalScope, h]
  · cases h : row.campus <;> simp [evalScope, h]
  · cases h : row.grade <;> simp [evalScope, h]
  · cases h : row.sectionRef <;> simp [evalScope, h]

/-- The guarded singleton emitted per level evaluates exactly as the
branch itself (the guard only skips an empty value list, which can
never match anyway). -/
theorem any_guard (row : ScopedRow) (l : List String) (f : List String → ScopeCond)
    (hnil : evalScope row (f []) = false) :
    (if l.isEmpty then ([] : List ScopeCond) else [f l]).any (evalScope row) =
      evalScope row (f l) := by
  cases l with
  | nil => simpa using hnil.symm
  | cons a t => simp

/-- Branch semantics: the Institution branch fires exactly on
Institution-scoped rows whose institution value is among the list. -/
theorem evalScope_instIn_iff (row : ScopedRow) (l : List String) :
    evalScope row (.instIn l) = true ↔
      row.scope_type = "Institution" ∧ ∃ v, row.institution = some v ∧ v ∈ l := by
  cases h : row.institution <;>
    simp [evalScope, h, Bool.and_eq_true, beq_iff_eq, List.contains]

/-- Branch semantics for the Campus branch. -/
theorem evalScope_campusIn_iff (row : ScopedRow) (l : List String) :
    evalScope row (.campusIn l) = true ↔
      row.scope_type = "Campus" ∧ ∃ v, row.campus = some v ∧ v ∈ l := by
  cases h : row.campus <;>
    simp [evalScope, h, Bool.and_eq_true, beq_iff_eq, List.contains]

/-- Branch semantics for the Grade branch. -/
theorem evalScope_gradeIn_iff (row : ScopedRow) (l : List String) :
    evalScope row (.gradeIn l) = true ↔
      row.scope_type = "Grade" ∧ ∃ v, row.grade = some v ∧ v ∈ l := by
  cases h : row.grade <;>
    simp [evalScope, h, Bool.and_eq_true, beq_iff_eq, List.contains]

/-- Branch semantics for the Section branch. -/
theorem evalScope_sectionIn_iff (row : ScopedRow) (l : List String) :
    evalScope row (.sectionIn l) = true ↔
      row.scope_type = "Section" ∧ ∃ v, row.sectionRef = some v ∧ v ∈ l := by
  cases h : row.sectionRef <;>
    simp [evalScope, h, Bool.and_eq_true, beq_iff_eq, List.contains]

/-- The empty-or-OR wrapper applied to the collected branches evaluates
as the OR itself. -/
theorem evalQuery_ite_orOf (row : ScopedRow) (l : List ScopeCond) :
    evalQuery row (if l.isEmpty then QueryCond.denyAll else QueryCond.orOf l) =
      l.any (evalScope row) := by
  cases l <;> simp [evalQuery]

/-- The empty-or-OR wrapper only ever yields deny-all or an OR of
branches. -/
theorem ite_orOf_shape (l : List ScopeCond) :
    (if l.isEmpty then QueryCond.denyAll else QueryCond.orOf l) = QueryCond.denyAll ∨
    ∃ cs, (if l.isEmpty then QueryCond.denyAll else QueryCond.orOf l) =
      QueryCond.orOf cs := by
  cases l <;> simp

/-- The Parent scope predicate is deny-all or an OR of scope branches,
never the unrestricted fragment. -/
theorem parent_scope_query_shape (db : PermDB) (user : String) :
    parent_scope_query db user = QueryCond.denyAll ∨
      ∃ cs, parent_scope_query db user = QueryCond.orOf cs := by
  unfold parent_scope_query
  dsimp only
  split
  · exact Or.inl rfl
  · split
    · exact Or.inl rfl
    · split
      · exact Or.inl rfl
      · exact ite_orOf_shape _

/-- Semantics of the Parent scope predicate: a row passes exactly when
one of the viewer's scope branches matches it; with no guardian link,
no students, or no scope values the predicate matches no row. -/
theorem parent_scope_query_eval (db : PermDB) (user : String) (row : ScopedRow) :
    (evalQuery row (parent_scope_query db user) = true ↔
      parent_scope_match db user row) := by
  cases hg : get_current_guardian db user with
  | none =>
    have hsd : parent_student_data db user = [] := by
      simp [parent_student_data, parent_students, hg]
    simp [parent_scope_query, hg, evalQuery, parent_scope_match,
          viewer_institutions, viewer_campuses, viewer_grades, viewer_sections, hsd]
  | some g =>
    have hps : parent_students db user = get_guardian_students db g := by
      simp [parent_students, hg]
    simp only [parent_scope_query, hg]
    by_cases h1 : (get_guardian_students db g).isEmpty = true
    · rw [if_pos h1]
      have hsd : parent_student_data db user = [] := by
        have h1' : get_guardian_students db g = [] := by simpa using h1
        simp [parent_student_data, hps, h1']
      simp [evalQuery, parent_scope_match, viewer_institutions, viewer_campuses,
            viewer_grades, viewer_sections, hsd]
    · rw [if_neg h1]
      by_cases h2 : ((db.students.filter
          (fun s => (get_guardian_students db g).contains s.name)).isEmpty) = true
      · rw [if_pos h2]
        have hsd : parent_student_data db user = [] := by
          simp only [parent_student_data, hps]
          exact List.isEmpty_iff.mp h2
        simp [evalQuery, parent_scope_match, viewer_institutions, viewer_campuses,
              viewer_grades, viewer_sections, hsd]
      · rw [if_neg h2]
        have hsd : parent_student_data db user =
            db.students.filter (fun s => (get_guardian_students db g).contains s.name) := by
          simp only [parent_student_data, hps]
        rw [evalQuery_ite_orOf]
        rw [List.any_append, List.any_append, List.any_append]
        rw [any_guard row _ ScopeCond.instIn (evalScope_empty_vals row).1,
            any_guard row _ ScopeCond.campusIn (evalScope_empty_vals row).2.1,
            any_guard row _ ScopeCond.gradeIn (evalScope_empty_vals row).2.2.1,
            any_guard row _ ScopeCond.sectionIn (evalScope_empty_vals row).2.2.2]
        simp only [Bool.or_eq_true]
        rw [evalScope_instIn_iff, evalScope_campusIn_iff, evalScope_gradeIn_iff,
            evalScope_sectionIn_iff]
        simp only [parent_scope_match, viewer_institutions, viewer_campuses,
                   viewer_grades, viewer_sections, hsd, or_assoc]

/-- C8: for a Parent viewer (no staff role), news_query and
school_event_query return the same scope predicate, which is deny-all
or an OR of per-level branches — never an unrestricted grant — and a
row passes it exactly when one of the viewer's scope branches (each
engaged only when the viewer contributes a value at that level)
matches the row. -/
theorem parent_scope_predicate_or_of_branches
    (db : PermDB) (user : String) (roles : List String)
    (hparent : roles.contains "Parent" = true)
    (hstaff : staff_view_all_roles.any (fun r => roles.contains r) = false) :
    news_query db user roles = parent_scope_query db user ∧
    school_event_query db user roles = parent_scope_query db user ∧
    (news_query db user roles = QueryCond.denyAll ∨
      ∃ cs, news_query db user roles = QueryCond.orOf cs) ∧
    (∀ row, evalQuery row (news_query db user roles) = true ↔
      parent_scope_match db user row) ∧
    (∀ row, evalQuery row (school_event_query db user roles) = true ↔
      parent_scope_match db user row) := by
  have hstaff' : ¬ ∃ x ∈ staff_view_all_roles, x ∈ roles := by simpa using hstaff
  have hparent' : "Parent" ∈ roles := by simpa using hparent
  have hn : news_query db user roles = parent_scope_query db user := by
    simp [news_query, hstaff', hparent']
  have he : school_event_query db user roles = parent_scope_query db user := by
    simp [school_event_query, hstaff', hparent']
  refine ⟨hn, he, ?_, ?_, ?_⟩
  · rw [hn]
    exact parent_scope_query_shape db user
  · intro row
    rw [hn]
    exact parent_scope_query_eval db user row
  · intro row
    rw [he]
    exact parent_scope_query_eval db user row

/-- Witness for C8 at the concrete store: the Parent predicate admits a
row scoped to the viewer's institution. -/
theorem parent_scope_predicate_or_of_branches_witness :
    evalQuery draft_scoped_row (news_query perm_demo_db "p@x.com" ["Parent"]) = true ∧
    evalQuery draft_scoped_row
      (school_event_query perm_demo_db "p@x.com" ["Parent"]) = true := by
  have h := parent_scope_predicate_or_of_branches perm_demo_db "p@x.com" ["Parent"]
    (by decide) (by decide)
  constructor
  · exact (h.2.2.2.1 draft_scoped_row).mpr (Or.inl ⟨rfl, "INST-1", rfl, by decide⟩)
  · exact (h.2.2.2.2 draft_scoped_row).mpr (Or.inl ⟨rfl, "INST-1", rfl, by decide⟩)

/-- Scope branches never read the status column. -/
theorem evalScope_status_irrelevant (row : ScopedRow) (s : String) (c : ScopeCond) :
    evalScope { row with status := s } c = evalScope row c := by
  cases c <;> rfl

/-- Any returned fragment other than the (never-returned) status
condition evaluates independently of the status column. -/
theorem evalQuery_status_irrelevant (row : ScopedRow) (s : String) :
    ∀ q, q ≠ QueryCond.statusPublished →
      evalQuery { row with status := s } q = evalQuery row q := by
  intro q hq
  cases q with
  | unrestricted => rfl
  | denyAll => rfl
  | statusPublished => exact absurd rfl hq
  | orOf cs =>
    simp only [evalQuery]
    induction cs with
    | nil => rfl
    | cons c t ih => simp [List.any_cons, ih, evalScope_status_irrelevant]

/-- news_query never returns the status = 'Published' fragment: that
condition only lives in the dead local list. -/
theorem news_query_not_statusPublished (db : PermDB) (user : String)
    (roles : List String) :
    news_query db user roles ≠ QueryCond.statusPublished := by
  by_cases h1 : ∃ x ∈ staff_view_all_roles, x ∈ roles
  · simp [news_query, h1]
  · by_cases h2 : "Parent" ∈ roles
    · have hq : news_query db user roles = parent_scope_query db user := by
        simp [news_query, h1, h2]
      rw [hq]
      rcases parent_scope_query_shape db user with h | ⟨cs, h⟩ <;> simp [h]
    · simp [news_query, h1, h2]

/-- school_event_query never returns the status = 'Published' fragment. -/
theorem school_event_query_not_statusPublished (db : PermDB) (user : String)
    (roles : List String) :
    school_event_query db user roles ≠ QueryCond.statusPublished := by
  by_cases h1 : ∃ x ∈ staff_view_all_roles, x ∈ roles
  · simp [school_event_query, h1]
  · by_cases h2 : "Parent" ∈ roles
    · have hq : school_event_query db user roles = parent_scope_query db user := by
        simp [school_event_query, h1, h2]
      rw [hq]
      rcases parent_scope_query_shape db user with h | ⟨cs, h⟩ <;> simp [h]
    · simp [school_event_query, h1, h2]

/-- C10: the row filters returned by news_query and school_event_query
impose no condition on the publication status — the status = 'Published'
condition is built into a local list that never reaches the returned
fragment — so a Draft row within the viewer's scope passes the Parent
filter, as the concrete store shows. -/
theorem scope_query_ignores_publication_status :
    (∀ (db : PermDB) (user : String) (roles : List String) (row : ScopedRow)
        (s : String),
      evalQuery { row with status := s } (news_query db user roles) =
        evalQuery row (news_query db user roles) ∧
      evalQuery { row with status := s } (school_event_query db user roles) =
        evalQuery row (school_event_query db user roles)) ∧
    draft_scoped_row.status = "Draft" ∧
    evalQuery draft_scoped_row (news_query perm_demo_db "p@x.com" ["Parent"]) = true ∧
    evalQuery draft_scoped_row
      (school_event_query perm_demo_db "p@x.com" ["Parent"]) = true := by
  refine ⟨?_, rfl, ?_, ?_⟩
  · intro db user roles row s
    exact ⟨evalQuery_status_irrelevant row s _ (news_query_not_statusPublished db user roles),
           evalQuery_status_irrelevant row s _
             (school_event_query_not_statusPublished db user roles)⟩
  · have hq : news_query perm_demo_db "p@x.com" ["Parent"] =
        parent_scope_query perm_demo_db "p@x.com" := by rfl
    rw [hq]
    exact (parent_scope_query_eval perm_demo_db "p@x.com" draft_scoped_row).mpr
      (Or.inl ⟨rfl, "INST-1", rfl, by decide⟩)
  · have hq : school_event_query perm_demo_db "p@x.com" ["Parent"] =
        parent_scope_query perm_demo_db "p@x.com" := by rfl
    rw [hq]
    exact (parent_scope_query_eval perm_demo_db "p@x.com" draft_scoped_row).mpr
      (Or.inl ⟨rfl, "INST-1", rfl, by decide⟩)

/-- The linking loop never touches the invites table. -/
theorem link_students_invites (rows : List GuardianInviteStudentRow) :
    ∀ (db : InviteDB) (g : Guardian),
      (link_students db g rows).1.invites = db.invites := by
  induction rows with
  | nil =>
    intro db g
    rfl
  | cons r t ih =>
    intro db g
    dsimp only [link_students]
    rw [ih]
    split <;> rfl

/-- The linking loop reports every invited student as linked, whether
or not its link already existed. -/
theorem link_students_reports_all (rows : List GuardianInviteStudentRow) :
    ∀ (db : InviteDB) (g : Guardian),
      (link_students db g rows).2 = rows.map (fun r => r.student) := by
  induction rows with
  | nil =>
    intro db g
    rfl
  | cons r t ih =>
    intro db g
    dsimp only [link_students]
    rw [ih, List.map_cons]

/-- Find-or-create of the guardian never touches the invites table. -/
theorem get_or_create_guardian_invites (db : InviteDB) (email : String) :
    (get_or_create_guardian db email).2.invites = db.invites := by
  unfold get_or_create_guardian
  split <;> rfl

/-- Counterexample for C1 as stated: the first accept succeeds, but the
second accept of the very same token and email errors with the
already-used failure instead of returning the same result. -/
theorem accept_invitation_second_call_errors :
    ∃ db' res,
      accept_invitation invite_demo_db "tok-1" "p@x.com" 50 = .ok (db', res) ∧
      res = { guardian_id := "GRD-1", students_linked := ["STU-1", "STU-2"] } ∧
      accept_invitation db' "tok-1" "p@x.com" 50 =
        .error (.validation "This invitation has already been used") := by
  exact ⟨_, _, rfl, rfl, rfl⟩

/-- C1 amended: while the invitation is not yet marked used, accept is
idempotent over the linking step — it does not error no matter which
Student Guardian links already exist, reports every originally-invited
student as linked, and uses the guardian found or created for the
email; but once a successful accept has marked the invitation used, a
second accept of the same token fails with the already-used error. -/
theorem accept_invitation_idempotent_until_marked_used
    (db : InviteDB) (token user_email : String) (now : Int) (inv : GuardianInvite)
    (htok : token ≠ "") (hemail : user_email ≠ "")
    (hvemail : valid_email user_email = true)
    (hfind : db.invites.find? (fun i => i.token == token) = some inv)
    (hnd : (db.invites.map (fun i => i.name)).Nodup)
    (hused : inv.used = false)
    (hvalid : inv.is_valid now = true)
    (hinvemail : inv.email = "" ∨ valid_email inv.email = true) :
    ∃ db',
      accept_invitation db token user_email now =
        .ok (db', { guardian_id := (get_or_create_guardian db user_email).1.name
                    students_linked := inv.student_ids.map (fun r => r.student) }) ∧
      db'.invites = db.invites.map (fun i =>
        if i.name == inv.name then
          { inv with used := true, used_at := some now
                     guardian := some (get_or_create_guardian db user_email).1.name }
        else i) ∧
      (∀ now', accept_invitation db' token user_email now' =
        .error (.validation "This invitation has already been used")) := by
  have hexp : (match inv.expires with
      | some e => decide (now > e) | none => false) = false := by
    cases he : inv.expires with
    | none => rfl
    | some e =>
      simp only [GuardianInvite.is_valid, hused, he] at hvalid
      by_cases h : now > e
      · simp [h] at hvalid
      · simp [h]
  have hval : ∀ old, GuardianInvite.validate_on_save
      { inv with used := true, used_at := some now
                 guardian := some (get_or_create_guardian db user_email).1.name }
      old now = .ok () := by
    intro old
    simp only [GuardianInvite.validate_on_save]
    rcases hinvemail with h | h <;> simp [h, hexp]
  have hmain : accept_invitation db token user_email now =
      .ok ({ (link_students (get_or_create_guardian db user_email).2
                (get_or_create_guardian db user_email).1 inv.student_ids).1 with
             invites := db.invites.map (fun i =>
               if i.name == inv.name then
                 { inv with used := true, used_at := some now
                            guardian := some (get_or_create_guardian db user_email).1.name }
               else i) },
           { guardian_id := (get_or_create_guardian db user_email).1.name
             students_linked := inv.student_ids.map (fun r => r.student) }) := by
    unfold accept_invitation
    rw [if_neg htok, if_neg hemail, if_neg (by simp [hvemail]), hfind]
    dsimp only
    rw [if_neg (by simp [hused]), if_neg (by simp [hvalid])]
    unfold GuardianInvite.mark_as_used
    rw [if_neg (by simp [hused]), if_neg (by simp [hvalid])]
    unfold save_guardian_invite
    dsimp only
    rw [hval]
    dsimp only
    rw [link_students_reports_all, link_students_invites,
        get_or_create_guardian_invites]
  refine ⟨_, hmain, rfl, ?_⟩
  intro now'
  have hfound := find_token_after_write_by_name db.invites token inv
    { inv with used := true, used_at := some now
               guardian := some (get_or_create_guardian db user_email).1.name }
    hnd hfind rfl rfl
  unfold accept_invitation
  rw [if_neg htok, if_neg hemail, if_neg (by simp [hvemail])]
  dsimp only
  rw [hfound]
  dsimp only
  rw [if_pos rfl]

/-- Witness for the amended C1 at the concrete store: accept succeeds
reporting both students, and only a second accept after the
mark-as-used write fails. -/
theorem accept_invitation_idempotent_until_marked_used_witness :
    ∃ db',
      accept_invitation invite_demo_db "tok-1" "p@x.com" 50 =
        .ok (db', { guardian_id := "GRD-1", students_linked := ["STU-1", "STU-2"] }) ∧
      (∀ now', accept_invitation db' "tok-1" "p@x.com" now' =
        .error (.validation "This invitation has already been used")) := by
  obtain ⟨db', hok, -, hsecond⟩ :=
    accept_invitation_idempotent_until_marked_used invite_demo_db "tok-1" "p@x.com" 50
      { name := "GINV-1", token := "tok-1", email := "p@x.com"
        institution := "INST-1"
        student_ids := [{ student := "STU-1", student_name := "Ana" },
                        { student := "STU-2", student_name := "Ben" }]
        expires := some 100, used := false, used_at := none, guardian := none }
      (by decide) (by decide) (by decide) (by decide) (by decide) rfl (by decide)
      (Or.inr (by decide))
  exact ⟨db', hok, hsecond⟩

end Kairos
